import Mathlib

/-!
Shallow embedding of the requirements-validation and parameter-derivation
engine of the mcp-server-template repository:

* `hardware_validator.py` — `HardwareValidator.validate` and its four
  sub-checks (`_validate_cpu`, `_validate_rt_kernel`, `_validate_hugepages`,
  `_validate_power_mode`), plus `_hugepage_to_gb`;
* `ppc_generator.py` — `PPCCommandGenerator.generate_parameters`,
  `_get_base_defaults`, `_calculate_reserved_cpus`, `_adjust_parameters`;
* `workload_templates.py` — the template record shape consumed by the
  generator.

Modelling conventions.  Python dicts with a fixed key set become structures
whose fields are `Option`-typed: `none` is an absent key (or a `None`
value where the code treats the two alike, which it does at every access
relevant here, since every read goes through `dict.get` or a truthiness
test).  A Python function that can raise is embedded as `Option`-returning,
`none` standing for the raised exception.  Messages appended to the
`errors` / `warnings` / `recommendations` lists are embedded as an
inductive type with one constructor per source f-string, carrying the
interpolated values; distinct constructors correspond to source strings
with distinct text.
-/

/-- Python truthiness of `dict.get("key")` yielding `None` or a bool;
also models `requirements.get(key, False)`. -/
def optBoolTruthy : Option Bool → Bool
  | none => false
  | some b => b

/-- Python truthiness of an optional string: `None` and `""` are falsy. -/
def optStrTruthy : Option String → Bool
  | none => false
  | some s => !(s == "")

/-- Python truthiness of an optional int: `None` and `0` are falsy. -/
def optIntTruthy : Option Int → Bool
  | none => false
  | some n => !(n == 0)

/-- Python `needle in haystack` (contiguous subsequence) on char lists. -/
def containsSeq (needle : List Char) : List Char → Bool
  | [] => needle.isPrefixOf []
  | c :: t => needle.isPrefixOf (c :: t) || containsSeq needle t

/-- Python substring containment `needle in hay` for strings. -/
def pyIn (needle hay : String) : Bool := containsSeq needle.data hay.data

/-- ASCII upper-casing of the letters that matter for `size.upper()` in
`_hugepage_to_gb`: the hugepage-size suffixes `g`/`m`/`k` (digits and the
already-uppercase letters are fixed by Python `str.upper` as well; other
lowercase letters would neither match a suffix nor parse as a number in
either model). -/
def upChar : Char → Char
  | 'g' => 'G'
  | 'm' => 'M'
  | 'k' => 'K'
  | c => c

/-- `size.upper()` as used by `_hugepage_to_gb`. -/
def pyUpper (s : String) : String := String.mk (s.data.map upChar)

/-- Value of a decimal digit character, if it is one. -/
def charDigit? (c : Char) : Option Nat :=
  if '0' ≤ c ∧ c ≤ '9' then some (c.toNat - '0'.toNat) else none

/-- Accumulator for `pyFloat?`. -/
def digitsValAux : List Char → Nat → Option Nat
  | [], acc => some acc
  | c :: t, acc =>
    match charDigit? c with
    | none => none
    | some d => digitsValAux t (acc * 10 + d)

/-- Python `float(s)` on the numeric prefixes occurring in hugepage sizes:
`none` models the `ValueError` raised on a non-numeric string (the sizes
accepted anywhere by the validator are decimal-integer literals; Python's
full float grammar is broader but agrees on these). -/
def pyFloat? (s : String) : Option Rat :=
  match s.data with
  | [] => none
  | l => (digitsValAux l 0).map fun n => (n : Rat)

/-- `HardwareValidator._hugepage_to_gb`: suffix `G` converts 1:1, `M`
divides by 1024, `K` by 1024², any other suffix gives 0 without parsing.
`none` models the `ValueError` that `float()` raises on a non-numeric
prefix under a recognised suffix. -/
def hugepage_to_gb (size : String) : Option Rat :=
  let su := pyUpper size
  if su.data.getLast? = some 'G' then
    pyFloat? (String.mk su.data.dropLast)
  else if su.data.getLast? = some 'M' then
    (pyFloat? (String.mk su.data.dropLast)).map (· / 1024)
  else if su.data.getLast? = some 'K' then
    (pyFloat? (String.mk su.data.dropLast)).map (· / (1024 * 1024))
  else
    some 0

/-- One constructor per message f-string appended to an `errors`,
`warnings` or `recommendations` list in `hardware_validator.py`, carrying
the interpolated values.  Distinct constructors render to texts with
distinct leading words in the source. -/
inductive Msg where
  /-- "Reserved CPU count is required" -/
  | reservedRequired
  /-- "Reserved CPU count is very low. Minimum 2 CPUs recommended for system workloads." -/
  | reservedLowWarning
  /-- "Consider reserving at least 2-4 CPUs for system processes" -/
  | reservedLowRec
  /-- "Isolated CPU count not specified. Will use ... CPUs (total - reserved)" -/
  | isolatedNotSpecified (isolated : Int)
  /-- "Total CPUs required (...) exceeds available CPUs per node (...)" -/
  | totalExceeds (total : Int) (cpus : Int)
  /-- "Reserved CPUs (...) not evenly divisible by NUMA nodes (...). ..." -/
  | numaNotDivisible (reserved : Int) (numa : Int)
  /-- "Your system has ... NUMA nodes. Consider allocating CPUs aligned to NUMA boundaries ..." -/
  | numaAlignRec (numa : Int)
  /-- "Hyperthreading is enabled. For ultra-low latency workloads, ..." -/
  | htRec
  /-- "Real-time kernel will be enabled. This provides deterministic latency ..." -/
  | rtRebootRec
  /-- "Real-time kernel on ARM architecture may have limited support. ..." -/
  | rtArmWarning
  /-- "RT kernel typically not required for ... workloads. ..." -/
  | rtNotNeededWarning (wt : String)
  /-- "RT kernel is highly recommended for ... workloads ..." -/
  | rtRecommendedRec (wt : String)
  /-- "Invalid hugepage size ... for x86_64. Valid sizes: 2M, 1G" -/
  | invalidHugepageSizeX86 (size : String)
  /-- "Invalid hugepage size ... for aarch64. Valid sizes: 64K, 2M, 32M, 512M, 1G" -/
  | invalidHugepageSizeArm (size : String)
  /-- "Hugepages will reserve ... GB of memory. Ensure sufficient memory is available." -/
  | hugepagesReserveRec (totalGb : Rat)
  /-- "Hugepage count not specified. Define the number of hugepages needed for your workload." -/
  | hugepageCountNotSpecifiedRec
  /-- "DPDK workloads typically require hugepages (1G recommended). ..." -/
  | dpdkHugepagesRec
  /-- "Power mode ... will increase power consumption significantly. ..." -/
  | powerModeWarning (mode : String)
  /-- "Per-pod power management and high power consumption mode are mutually exclusive. ..." -/
  | perPodPowerConflictWarning
deriving DecidableEq

/-- `hardware_info["summary"]` as read by the validator and the generator:
`self.summary.get(key, default)` accesses. -/
structure Summary where
  cpus_per_node : Option Int := none
  numa_nodes_per_node : Option Int := none
  hyperthreading_enabled : Option Bool := none
  architectures : Option (List String) := none
deriving DecidableEq

/-- The `requirements` dict passed to `HardwareValidator.validate`. -/
structure Requirements where
  workload_type : Option String := none
  isolated_cpu_count : Option Int := none
  reserved_cpu_count : Option Int := none
  enable_rt_kernel : Option Bool := none
  enable_dpdk : Option Bool := none
  hugepages_size : Option String := none
  hugepages_count : Option Int := none
  power_mode : Option String := none
  per_pod_power_management : Option Bool := none
deriving DecidableEq

/-- Shape shared by the four sub-check result dicts (fields a given
sub-check never writes keep their initial value, matching the
`.get(key, [])` reads in `validate`). -/
structure CheckResult where
  is_valid : Bool := true
  errors : List Msg := []
  warnings : List Msg := []
  recommendations : List Msg := []
deriving DecidableEq

/-- The aggregate dict returned by `HardwareValidator.validate`;
`detailed_checks` is flattened into the four named sub-check fields. -/
structure ValidationReport where
  is_valid : Bool
  errors : List Msg
  warnings : List Msg
  recommendations : List Msg
  cpu_check : CheckResult
  rt_check : CheckResult
  hugepages_check : CheckResult
  power_check : CheckResult
  overall_status : String
deriving DecidableEq

/-- `self.summary.get("architectures", ["unknown"])[0]`: `none` models the
`IndexError` raised when the summary holds an empty architectures list. -/
def getArchitecture (s : Summary) : Option String :=
  (s.architectures.getD ["unknown"]).head?

/-- `HardwareValidator._validate_cpu`.  Total: no Python statement in it
can raise (the modulo runs only under `numa_nodes > 1`). -/
def validate_cpu (s : Summary) (req : Requirements) : CheckResult :=
  let cpus_per_node := s.cpus_per_node.getD 0
  let numa_nodes := s.numa_nodes_per_node.getD 1
  let ht_enabled := s.hyperthreading_enabled.getD true
  match req.reserved_cpu_count with
  | none =>
    { is_valid := false, errors := [Msg.reservedRequired] }
  | some reserved =>
    let lowWarn : List Msg := if reserved < 2 then [Msg.reservedLowWarning] else []
    let lowRec : List Msg := if reserved < 2 then [Msg.reservedLowRec] else []
    let isolated : Int :=
      match req.isolated_cpu_count with
      | none => cpus_per_node - reserved
      | some i => i
    let isoRec : List Msg :=
      match req.isolated_cpu_count with
      | none => [Msg.isolatedNotSpecified (cpus_per_node - reserved)]
      | some _ => []
    let total_required := isolated + reserved
    let fitErr : List Msg :=
      if total_required > cpus_per_node then
        [Msg.totalExceeds total_required cpus_per_node]
      else []
    let numaWarn : List Msg :=
      if 1 < numa_nodes ∧ Int.emod reserved numa_nodes ≠ 0 then
        [Msg.numaNotDivisible reserved numa_nodes]
      else []
    let numaRec : List Msg := if 1 < numa_nodes then [Msg.numaAlignRec numa_nodes] else []
    let htRecs : List Msg := if ht_enabled then [Msg.htRec] else []
    { is_valid := !(total_required > cpus_per_node : Bool)
      errors := fitErr
      warnings := lowWarn ++ numaWarn
      recommendations := lowRec ++ isoRec ++ numaRec ++ htRecs }

/-- `HardwareValidator._validate_rt_kernel`; `none` models the
`IndexError` from the architecture lookup on an empty list. -/
def validate_rt_kernel (s : Summary) (req : Requirements) : Option CheckResult :=
  match getArchitecture s with
  | none => none
  | some architecture =>
    let enable_rt := optBoolTruthy req.enable_rt_kernel
    if enable_rt then
      let armWarn : List Msg :=
        if pyIn "aarch64" architecture || pyIn "arm64" architecture then
          [Msg.rtArmWarning]
        else []
      let workload_type := req.workload_type.getD ""
      let wtWarn : List Msg :=
        if workload_type = "database" ∨ workload_type = "ai-inference" then
          [Msg.rtNotNeededWarning workload_type]
        else []
      some { warnings := armWarn ++ wtWarn, recommendations := [Msg.rtRebootRec] }
    else
      let workload_type := req.workload_type.getD ""
      let wtRec : List Msg :=
        if workload_type = "5g-ran" ∨ workload_type = "telco-vnf" then
          [Msg.rtRecommendedRec workload_type]
        else []
      some { recommendations := wtRec }

/-- `HardwareValidator._validate_hugepages`; `none` models either the
`IndexError` from the architecture lookup on an empty list or the
`ValueError` from `float()` inside `_hugepage_to_gb`. -/
def validate_hugepages (s : Summary) (req : Requirements) : Option CheckResult :=
  match getArchitecture s with
  | none => none
  | some architecture =>
    let hugepage_size := req.hugepages_size
    let hugepage_count := req.hugepages_count
    let dpdkRec : List Msg :=
      if optBoolTruthy req.enable_dpdk && !(optStrTruthy hugepage_size) then
        [Msg.dpdkHugepagesRec]
      else []
    if optStrTruthy hugepage_size then
      let size := hugepage_size.getD ""
      let sizeErrs : List Msg :=
        if pyIn "x86" architecture || pyIn "amd64" architecture then
          if size == "2M" || size == "1G" then [] else [Msg.invalidHugepageSizeX86 size]
        else if pyIn "aarch64" architecture || pyIn "arm64" architecture then
          if size == "64K" || size == "2M" || size == "32M" || size == "512M" || size == "1G" then
            []
          else [Msg.invalidHugepageSizeArm size]
        else []
      if optIntTruthy hugepage_count then
        match hugepage_to_gb size with
        | none => none
        | some size_gb =>
          some { is_valid := sizeErrs.isEmpty
                 errors := sizeErrs
                 recommendations :=
                   [Msg.hugepagesReserveRec (size_gb * ((hugepage_count.getD 0 : Int) : Rat))]
                   ++ dpdkRec }
      else
        some { is_valid := sizeErrs.isEmpty
               errors := sizeErrs
               recommendations := [Msg.hugepageCountNotSpecifiedRec] ++ dpdkRec }
    else
      some { recommendations := dpdkRec }

/-- `HardwareValidator._validate_power_mode`.  Total. -/
def validate_power_mode (req : Requirements) : CheckResult :=
  let power_mode := req.power_mode.getD "default"
  let per_pod_pm := optBoolTruthy req.per_pod_power_management
  let w1 : List Msg :=
    if power_mode == "low-latency" || power_mode == "ultra-low-latency" then
      [Msg.powerModeWarning power_mode]
    else []
  let w2 : List Msg :=
    if per_pod_pm && !(power_mode == "default") then
      [Msg.perPodPowerConflictWarning]
    else []
  { warnings := w1 ++ w2 }

/-- `HardwareValidator.validate`: runs the four sub-checks in source
order; only a CPU-sub-check failure flips the aggregate `is_valid` and
contributes to `errors`; an invalid hugepages sub-check contributes its
errors to the aggregate `warnings` list; the power sub-check contributes
only warnings.  `none` models an exception escaping a sub-check. -/
def validate (s : Summary) (req : Requirements) : Option ValidationReport :=
  let cpu := validate_cpu s req
  match validate_rt_kernel s req with
  | none => none
  | some rt =>
    match validate_hugepages s req with
    | none => none
    | some hp =>
      let power := validate_power_mode req
      some
        { is_valid := cpu.is_valid
          errors := if cpu.is_valid then [] else cpu.errors
          warnings :=
            cpu.warnings ++ rt.warnings ++ (if hp.is_valid then [] else hp.errors)
            ++ power.warnings
          recommendations := cpu.recommendations ++ rt.recommendations ++ hp.recommendations
          cpu_check := cpu
          rt_check := rt
          hugepages_check := hp
          power_check := power
          overall_status :=
            if cpu.is_valid then "✓ Configuration is valid and feasible"
            else "✗ Configuration has issues that must be addressed" }

/-- The parameter dict built by `PPCCommandGenerator.generate_parameters`
(also the value of a template's `"default_config"`): its possible keys,
`none` = key absent. -/
structure Params where
  enable_rt_kernel : Option Bool := none
  disable_ht : Option Bool := none
  enable_dpdk : Option Bool := none
  power_mode : Option String := none
  topology_policy : Option String := none
  split_reserved_across_numa : Option Bool := none
  per_pod_power_management : Option Bool := none
  reserved_cpu_count : Option Int := none
  isolated_cpu_count : Option Int := none
  mcp_name : Option String := none
  profile_name : Option String := none
deriving DecidableEq

/-- The `**overrides` keyword arguments of `generate_parameters`: `none`
covers both an absent key and an explicit `None` value (the code treats
the two alike: an absent-or-`None` `reserved_cpu_count` triggers the
heuristic, and only non-`None` values are applied). -/
structure Overrides where
  enable_rt_kernel : Option Bool := none
  disable_ht : Option Bool := none
  enable_dpdk : Option Bool := none
  power_mode : Option String := none
  topology_policy : Option String := none
  split_reserved_across_numa : Option Bool := none
  per_pod_power_management : Option Bool := none
  reserved_cpu_count : Option Int := none
  isolated_cpu_count : Option Int := none
deriving DecidableEq

/-- A catalog entry as consumed by `generate_parameters`: only its
`"default_config"` mapping is read. -/
structure Template where
  default_config : Params := {}
deriving DecidableEq

/-- `PPCCommandGenerator._get_base_defaults`. -/
def get_base_defaults : Params :=
  { enable_rt_kernel := some false
    disable_ht := some false
    enable_dpdk := some false
    power_mode := some "default"
    topology_policy := some "restricted"
    split_reserved_across_numa := some false
    per_pod_power_management := some false }

/-- `PPCCommandGenerator._calculate_reserved_cpus`.
`int(cpus_per_node * 0.1)` is embedded as `Int.tdiv cpus_per_node 10`:
for every machine-range integer `n`, the IEEE-754 double product
`n * 0.1` truncates to exactly `n` tdiv `10` (the product differs from
`n/10` by under half an ulp, never crossing an integer).  Python `//` is
floor division, embedded as `Int.fdiv`. -/
def calculate_reserved_cpus (s : Summary) (workload_type : String) : Int :=
  let cpus_per_node := s.cpus_per_node.getD 0
  let numa_nodes := s.numa_nodes_per_node.getD 1
  if cpus_per_node = 0 then 4
  else
    let base_reserved := max 2 (numa_nodes * 2)
    let reserved :=
      if workload_type = "5g-ran" ∨ workload_type = "telco-vnf" then base_reserved
      else if workload_type = "database" then max 4 (Int.tdiv cpus_per_node 10)
      else if workload_type = "ai-inference" then base_reserved
      else max 4 (Int.tdiv cpus_per_node 10)
    max 2 (min reserved (Int.fdiv cpus_per_node 4))

/-- `params[key] = value` for each non-`None` override
(`generate_parameters`, the loop over `overrides.items()`). -/
def applyOverrides (p : Params) (ov : Overrides) : Params :=
  { enable_rt_kernel := (ov.enable_rt_kernel.map some).getD p.enable_rt_kernel
    disable_ht := (ov.disable_ht.map some).getD p.disable_ht
    enable_dpdk := (ov.enable_dpdk.map some).getD p.enable_dpdk
    power_mode := (ov.power_mode.map some).getD p.power_mode
    topology_policy := (ov.topology_policy.map some).getD p.topology_policy
    split_reserved_across_numa :=
      (ov.split_reserved_across_numa.map some).getD p.split_reserved_across_numa
    per_pod_power_management :=
      (ov.per_pod_power_management.map some).getD p.per_pod_power_management
    reserved_cpu_count := (ov.reserved_cpu_count.map some).getD p.reserved_cpu_count
    isolated_cpu_count := (ov.isolated_cpu_count.map some).getD p.isolated_cpu_count
    mcp_name := p.mcp_name
    profile_name := p.profile_name }

/-- Steps 2-4 of `generate_parameters`, starting from an already-seeded
working dict `params0` (the copied template defaults or the base
defaults): set `mcp_name`/`profile_name`, run the reserved-CPU heuristic
when neither override nor seed fixes the value, then apply the non-`None`
overrides. -/
def merge_from (s : Summary) (workload_type mcp_name profile_name : String)
    (params0 : Params) (ov : Overrides) : Params :=
  let params1 := { params0 with mcp_name := some mcp_name, profile_name := some profile_name }
  let params2 :=
    if ov.reserved_cpu_count = none then
      if params1.reserved_cpu_count = none then
        { params1 with
            reserved_cpu_count := some (calculate_reserved_cpus s workload_type) }
      else params1
    else params1
  applyOverrides params2 ov

/-- The merged parameter set of `generate_parameters` just before
`_adjust_parameters` runs (steps 1-4). -/
def merge_parameters (s : Summary) (workload_type mcp_name profile_name : String)
    (template : Option Template) (ov : Overrides) : Params :=
  let params0 :=
    match template with
    | some t => t.default_config
    | none => get_base_defaults
  merge_from s workload_type mcp_name profile_name params0 ov

/-- First block of `_adjust_parameters`: per-pod power management truthy
and `params.get("power_mode") != "default"` (also true when the key is
absent) forces `power_mode` to `"default"`. -/
def adjust_power (p : Params) : Params :=
  if optBoolTruthy p.per_pod_power_management && !(p.power_mode == some "default") then
    { p with power_mode := some "default" }
  else p

/-- Second block of `_adjust_parameters`: DPDK truthy and
`params.get("topology_policy") not in ["single-numa-node", "restricted"]`
(also true when the key is absent) forces `"single-numa-node"`. -/
def adjust_topology (p : Params) : Params :=
  if optBoolTruthy p.enable_dpdk &&
      !(p.topology_policy == some "single-numa-node"
        || p.topology_policy == some "restricted") then
    { p with topology_policy := some "single-numa-node" }
  else p

/-- Third block of `_adjust_parameters`: more than one NUMA node, split
not already truthy, and `params.get("reserved_cpu_count", 0)` at least
`numa_nodes * 2` enables the NUMA split. -/
def adjust_numa_split (s : Summary) (p : Params) : Params :=
  let numa_nodes := s.numa_nodes_per_node.getD 1
  if 1 < numa_nodes ∧ optBoolTruthy p.split_reserved_across_numa = false
      ∧ numa_nodes * 2 ≤ p.reserved_cpu_count.getD 0 then
    { p with split_reserved_across_numa := some true }
  else p

/-- `PPCCommandGenerator._adjust_parameters`: the three blocks in source
order. -/
def adjust_parameters (s : Summary) (p : Params) : Params :=
  adjust_numa_split s (adjust_topology (adjust_power p))

/-- `PPCCommandGenerator.generate_parameters` (value level): seed, merge,
then conflict resolution. -/
def generate_parameters (s : Summary) (workload_type mcp_name profile_name : String)
    (template : Option Template) (ov : Overrides) : Params :=
  adjust_parameters s (merge_parameters s workload_type mcp_name profile_name template ov)

/-- `generate_parameters` at the object level, making the `.copy()` in
`params = template.get("default_config", {}).copy()` observable: the heap
is a list of live parameter dicts addressed by index, the template's
`default_config` dict lives at `templateAddr`, and the copy allocates a
fresh dict at address `heap.length`; every subsequent key assignment of
the merge and of the in-place `_adjust_parameters` writes only to that
fresh address.  Returns the new heap and the address of the result dict
(an aliasing implementation would instead return `templateAddr` and write
through it). -/
def generate_parameters_heap (heap : List Params) (s : Summary)
    (workload_type mcp_name profile_name : String)
    (templateAddr : Option Nat) (ov : Overrides) : List Params × Nat :=
  let params0 :=
    match templateAddr with
    | some a => heap.getD a {}
    | none => get_base_defaults
  let final := adjust_parameters s (merge_from s workload_type mcp_name profile_name params0 ov)
  (heap ++ [final], heap.length)

/-- Amended C3 formula, modelled from the spec's words with the rounding
corrected to the code's truncation: `max(4, int(cpus × 0.1))` clamped to
`[2, cpus // 4]`, and 4 for an unknown/zero `cpus_per_node`. -/
def spec_reserved_default (cpus : Int) : Int :=
  if cpus = 0 then 4
  else max 2 (min (max 4 (Int.tdiv cpus 10)) (Int.fdiv cpus 4))

/-- C3's formula exactly as the claim words it: `max(4, round(cpus × 0.1))`
clamped to `[2, cpus // 4]`, and 4 for an unknown/zero `cpus_per_node`. -/
def claim_reserved_default (cpus : Int) : Int :=
  if cpus = 0 then 4
  else max 2 (min (max 4 (round ((cpus : Rat) * (1 / 10)))) (Int.fdiv cpus 4))

/-- Topology of the C1 scenario: `cpus_per_node=48`, `numa_nodes_per_node=2`,
hyperthreading enabled. -/
def c1Summary : Summary :=
  { cpus_per_node := some 48, numa_nodes_per_node := some 2,
    hyperthreading_enabled := some true }

/-- Request of the C1 scenario: `workload_type="database"`,
`reserved_cpu_count=46`, `isolated_cpu_count` absent. -/
def c1Request : Requirements :=
  { workload_type := some "database", reserved_cpu_count := some 46 }

/-- Topology for the C2 counterexample: an x86_64 cluster. -/
def c2Summary : Summary :=
  { cpus_per_node := some 48, numa_nodes_per_node := some 2,
    hyperthreading_enabled := some true, architectures := some ["x86_64"] }

/-- Request for the C2 counterexample: CPU numbers that fit, huge-page
size "3M" that the x86_64 whitelist rejects. -/
def c2Request : Requirements :=
  { workload_type := some "database", reserved_cpu_count := some 4,
    isolated_cpu_count := some 8, hugepages_size := some "3M" }

/-- The report of the C2 counterexample run. -/
def c2Report : ValidationReport :=
  (validate c2Summary c2Request).getD
    { is_valid := false, errors := [], warnings := [], recommendations := []
      cpu_check := {}, rt_check := {}, hugepages_check := {}, power_check := {}
      overall_status := "" }

/-- Topology used to exercise the C3 amended formula. -/
def c3Summary : Summary :=
  { cpus_per_node := some 48, numa_nodes_per_node := some 2 }

/-- Summary whose architectures list is present but empty: the input on
which `validate` raises `IndexError`. -/
def c4Summary : Summary :=
  { cpus_per_node := some 48, numa_nodes_per_node := some 1,
    architectures := some [] }

/-- An otherwise well-formed request for the C4 counterexample. -/
def c4Request : Requirements :=
  { reserved_cpu_count := some 4 }

/-- Request with the required reserved count missing, for the C4 witness. -/
def c4wRequest : Requirements :=
  { workload_type := some "database" }

/-- x86_64 topology for the C6 witness. -/
def c6Summary : Summary :=
  { cpus_per_node := some 48, numa_nodes_per_node := some 2,
    hyperthreading_enabled := some true, architectures := some ["x86_64"] }

/-- Request with huge-page size "3M" (rejected on x86_64) for the C6 witness. -/
def c6Request : Requirements :=
  { workload_type := some "database", reserved_cpu_count := some 4,
    isolated_cpu_count := some 8, hugepages_size := some "3M" }

/-- The report of the C6 witness run. -/
def c6Report : ValidationReport :=
  (validate c6Summary c6Request).getD
    { is_valid := false, errors := [], warnings := [], recommendations := []
      cpu_check := {}, rt_check := {}, hugepages_check := {}, power_check := {}
      overall_status := "" }

/-- Overrides of the C7 scenario: `per_pod_power_management=true` and
`power_mode="low-latency"` both supplied. -/
def c7wOverrides : Overrides :=
  { per_pod_power_management := some true, power_mode := some "low-latency" }

/-- x86_64 topology for the C10 witness. -/
def c10Summary : Summary :=
  { cpus_per_node := some 48, numa_nodes_per_node := some 2,
    architectures := some ["x86_64"] }

/-- Request supplying a huge-page size, for the C10 witness; the witness
varies its `hugepages_count` between `some 0` and `none`. -/
def c10Request : Requirements :=
  { workload_type := some "database", reserved_cpu_count := some 4,
    hugepages_size := some "2M" }

/-- The huge-pages sub-check result of the C10 witness run with
`hugepages_count = 0`. -/
def c10Hp : CheckResult :=
  (validate_hugepages c10Summary
    { c10Request with hugepages_count := some 0 }).getD {}

theorem adjust_topology_per_pod (p : Params) :
    (adjust_topology p).per_pod_power_management = p.per_pod_power_management := by
  unfold adjust_topology; split <;> rfl

theorem adjust_topology_power (p : Params) :
    (adjust_topology p).power_mode = p.power_mode := by
  unfold adjust_topology; split <;> rfl

theorem adjust_numa_split_per_pod (s : Summary) (p : Params) :
    (adjust_numa_split s p).per_pod_power_management = p.per_pod_power_management := by
  unfold adjust_numa_split; dsimp only; split <;> rfl

theorem adjust_numa_split_power (s : Summary) (p : Params) :
    (adjust_numa_split s p).power_mode = p.power_mode := by
  unfold adjust_numa_split; dsimp only; split <;> rfl

theorem adjust_numa_split_dpdk (s : Summary) (p : Params) :
    (adjust_numa_split s p).enable_dpdk = p.enable_dpdk := by
  unfold adjust_numa_split; dsimp only; split <;> rfl

theorem adjust_numa_split_topology (s : Summary) (p : Params) :
    (adjust_numa_split s p).topology_policy = p.topology_policy := by
  unfold adjust_numa_split; dsimp only; split <;> rfl

theorem adjust_numa_split_reserved (s : Summary) (p : Params) :
    (adjust_numa_split s p).reserved_cpu_count = p.reserved_cpu_count := by
  unfold adjust_numa_split; dsimp only; split <;> rfl

theorem adjust_power_eq_self (q : Params)
    (h : optBoolTruthy q.per_pod_power_management = false ∨ q.power_mode = some "default") :
    adjust_power q = q := by
  unfold adjust_power
  rcases h with h | h <;> simp [h]

theorem adjust_power_post (p : Params) :
    optBoolTruthy (adjust_power p).per_pod_power_management = false
      ∨ (adjust_power p).power_mode = some "default" := by
  unfold adjust_power
  by_cases hm : p.power_mode = some "default"
  · right
    have hbeq : (p.power_mode == some "default") = true := beq_iff_eq.mpr hm
    simp [hbeq, hm]
  · have hbeq : (p.power_mode == some "default") = false := beq_eq_false_iff_ne.mpr hm
    cases hb : optBoolTruthy p.per_pod_power_management
    · left; simp [hb, hbeq]
    · right; simp [hb, hbeq]

theorem adjust_topology_eq_self (q : Params)
    (h : optBoolTruthy q.enable_dpdk = false
      ∨ q.topology_policy = some "single-numa-node"
      ∨ q.topology_policy = some "restricted") :
    adjust_topology q = q := by
  unfold adjust_topology
  rcases h with h | h | h <;> simp [h]

theorem adjust_topology_post (p : Params) :
    optBoolTruthy (adjust_topology p).enable_dpdk = false
      ∨ (adjust_topology p).topology_policy = some "single-numa-node"
      ∨ (adjust_topology p).topology_policy = some "restricted" := by
  unfold adjust_topology
  by_cases h1 : p.topology_policy = some "single-numa-node"
  · have hbeq : (p.topology_policy == some "single-numa-node") = true := beq_iff_eq.mpr h1
    right; left; simp [hbeq, h1]
  · have hbeq1 : (p.topology_policy == some "single-numa-node") = false :=
      beq_eq_false_iff_ne.mpr h1
    by_cases h2 : p.topology_policy = some "restricted"
    · have hbeq2 : (p.topology_policy == some "restricted") = true := beq_iff_eq.mpr h2
      right; right; simp [hbeq1, hbeq2, h2]
    · have hbeq2 : (p.topology_policy == some "restricted") = false :=
        beq_eq_false_iff_ne.mpr h2
      cases hb : optBoolTruthy p.enable_dpdk
      · left; simp [hb, hbeq1, hbeq2]
      · right; left; simp [hb, hbeq1, hbeq2]

theorem adjust_numa_split_eq_self (s : Summary) (q : Params)
    (h : ¬(1 < s.numa_nodes_per_node.getD 1)
      ∨ optBoolTruthy q.split_reserved_across_numa = true
      ∨ q.reserved_cpu_count.getD 0 < (s.numa_nodes_per_node.getD 1) * 2) :
    adjust_numa_split s q = q := by
  unfold adjust_numa_split
  dsimp only
  rcases h with h | h | h
  · rw [if_neg]; rintro ⟨h1, -, -⟩; exact h h1
  · rw [if_neg]; rintro ⟨-, h2, -⟩; rw [h] at h2; cases h2
  · rw [if_neg]; rintro ⟨-, -, h3⟩; omega

theorem adjust_numa_split_post (s : Summary) (p : Params) :
    ¬(1 < s.numa_nodes_per_node.getD 1)
      ∨ optBoolTruthy (adjust_numa_split s p).split_reserved_across_numa = true
      ∨ (adjust_numa_split s p).reserved_cpu_count.getD 0
          < (s.numa_nodes_per_node.getD 1) * 2 := by
  by_cases h1 : 1 < s.numa_nodes_per_node.getD 1
  · by_cases h3 : (s.numa_nodes_per_node.getD 1) * 2 ≤ p.reserved_cpu_count.getD 0
    · cases hb : optBoolTruthy p.split_reserved_across_numa
      · right; left
        unfold adjust_numa_split
        dsimp only
        rw [if_pos ⟨h1, hb, h3⟩]
        rfl
      · right; left
        have hpres : adjust_numa_split s p = p := by
          unfold adjust_numa_split
          dsimp only
          rw [if_neg]; rintro ⟨-, h2, -⟩; rw [hb] at h2; cases h2
        rw [hpres]; exact hb
    · right; right
      rw [adjust_numa_split_reserved]
      omega
  · exact Or.inl h1

theorem validate_some_inv (s : Summary) (req : Requirements) (r : ValidationReport)
    (h : validate s req = some r) :
    ∃ rt hp, validate_rt_kernel s req = some rt ∧ validate_hugepages s req = some hp ∧
      r = { is_valid := (validate_cpu s req).is_valid
            errors :=
              if (validate_cpu s req).is_valid then [] else (validate_cpu s req).errors
            warnings :=
              (validate_cpu s req).warnings ++ rt.warnings
              ++ (if hp.is_valid then [] else hp.errors)
              ++ (validate_power_mode req).warnings
            recommendations :=
              (validate_cpu s req).recommendations ++ rt.recommendations
              ++ hp.recommendations
            cpu_check := validate_cpu s req
            rt_check := rt
            hugepages_check := hp
            power_check := validate_power_mode req
            overall_status :=
              if (validate_cpu s req).is_valid then "✓ Configuration is valid and feasible"
              else "✗ Configuration has issues that must be addressed" } := by
  unfold validate at h
  cases hrt : validate_rt_kernel s req with
  | none => rw [hrt] at h; simp at h
  | some rt =>
    rw [hrt] at h
    cases hhp : validate_hugepages s req with
    | none => rw [hhp] at h; simp at h
    | some hp =>
      rw [hhp] at h
      dsimp only at h
      exact ⟨rt, hp, rfl, rfl, (Option.some.inj h).symm⟩

theorem validate_cpu_errors_shape (s : Summary) (req : Requirements) :
    ∀ e ∈ (validate_cpu s req).errors,
      e = Msg.reservedRequired ∨ ∃ t c, e = Msg.totalExceeds t c := by
  unfold validate_cpu
  cases req.reserved_cpu_count with
  | none =>
    intro e he
    simp at he
    exact Or.inl he
  | some reserved =>
    intro e he
    dsimp only at he
    split at he
    · simp at he
      exact Or.inr ⟨_, _, he⟩
    · simp at he

theorem getArchitecture_isSome (s : Summary) (h : s.architectures ≠ some []) :
    ∃ a, getArchitecture s = some a := by
  unfold getArchitecture
  cases harch : s.architectures with
  | none => exact ⟨"unknown", rfl⟩
  | some l =>
    cases l with
    | nil => exact absurd harch h
    | cons a t => exact ⟨a, rfl⟩

theorem validate_rt_kernel_isSome (s : Summary) (req : Requirements) (a : String)
    (h : getArchitecture s = some a) :
    ∃ rt, validate_rt_kernel s req = some rt := by
  unfold validate_rt_kernel
  rw [h]
  dsimp only
  split
  · exact ⟨_, rfl⟩
  · exact ⟨_, rfl⟩

theorem validate_hugepages_isSome (s : Summary) (req : Requirements) (a : String)
    (h : getArchitecture s = some a)
    (hsize : ∀ sz, req.hugepages_size = some sz → sz ≠ "" →
      optIntTruthy req.hugepages_count = true → (hugepage_to_gb sz).isSome = true) :
    ∃ hp, validate_hugepages s req = some hp := by
  unfold validate_hugepages
  rw [h]
  dsimp only
  cases hst : optStrTruthy req.hugepages_size with
  | false =>
    rw [if_neg Bool.false_ne_true]
    exact ⟨_, rfl⟩
  | true =>
    rw [if_pos rfl]
    cases hs : req.hugepages_size with
    | none => rw [hs] at hst; cases hst
    | some sz =>
      have hne : sz ≠ "" := by
        rw [hs] at hst
        unfold optStrTruthy at hst
        intro hcon
        rw [hcon] at hst
        cases hst
      cases hct : optIntTruthy req.hugepages_count with
      | false =>
        rw [if_neg Bool.false_ne_true]
        exact ⟨_, rfl⟩
      | true =>
        rw [if_pos rfl]
        have hgbs := hsize sz hs hne hct
        simp only [Option.getD_some]
        cases hgb : hugepage_to_gb sz with
        | none =>
          rw [hgb] at hgbs
          cases hgbs
        | some gb => exact ⟨_, rfl⟩

theorem validate_hugepages_bad_size (s : Summary) (req : Requirements) (sz arch : String)
    (harch : getArchitecture s = some arch)
    (hsz : req.hugepages_size = some sz) (hne : sz ≠ "")
    (hrej : ((pyIn "x86" arch || pyIn "amd64" arch) = true ∧ sz ≠ "2M" ∧ sz ≠ "1G")
      ∨ ((pyIn "x86" arch || pyIn "amd64" arch) = false
          ∧ (pyIn "aarch64" arch || pyIn "arm64" arch) = true
          ∧ sz ≠ "64K" ∧ sz ≠ "2M" ∧ sz ≠ "32M" ∧ sz ≠ "512M" ∧ sz ≠ "1G"))
    (hp : CheckResult) (hhp : validate_hugepages s req = some hp) :
    hp.is_valid = false
    ∧ (hp.errors = [Msg.invalidHugepageSizeX86 sz]
        ∨ hp.errors = [Msg.invalidHugepageSizeArm sz]) := by
  unfold validate_hugepages at hhp
  rw [harch] at hhp
  dsimp only at hhp
  rw [hsz] at hhp
  simp only [Option.getD_some] at hhp
  have ht : optStrTruthy (some sz) = true := by
    unfold optStrTruthy
    simp [hne]
  rw [ht, if_pos rfl] at hhp
  have herrs :
      (if (pyIn "x86" arch || pyIn "amd64" arch) = true then
        if (sz == "2M" || sz == "1G") = true then [] else [Msg.invalidHugepageSizeX86 sz]
      else
        if (pyIn "aarch64" arch || pyIn "arm64" arch) = true then
          if (sz == "64K" || sz == "2M" || sz == "32M" || sz == "512M" || sz == "1G") = true
          then [] else [Msg.invalidHugepageSizeArm sz]
        else [])
      = [Msg.invalidHugepageSizeX86 sz]
      ∨ (if (pyIn "x86" arch || pyIn "amd64" arch) = true then
          if (sz == "2M" || sz == "1G") = true then [] else [Msg.invalidHugepageSizeX86 sz]
        else
          if (pyIn "aarch64" arch || pyIn "arm64" arch) = true then
            if (sz == "64K" || sz == "2M" || sz == "32M" || sz == "512M" || sz == "1G") = true
            then [] else [Msg.invalidHugepageSizeArm sz]
          else [])
        = [Msg.invalidHugepageSizeArm sz] := by
    rcases hrej with ⟨h1, h2, h3⟩ | ⟨h1, h1a, h2, h3, h4, h5, h6⟩
    · left
      rw [if_pos h1, if_neg]
      simp [h2, h3]
    · right
      rw [if_neg (by rw [h1]; exact Bool.false_ne_true), if_pos h1a, if_neg]
      simp [h2, h3, h4, h5, h6]
  rcases herrs with herrs | herrs <;>
    rw [herrs] at hhp <;>
    split at hhp
  case isTrue =>
    cases hgb : hugepage_to_gb sz with
    | none => rw [hgb] at hhp; cases hhp
    | some gb =>
      rw [hgb] at hhp
      dsimp only at hhp
      have := Option.some.inj hhp
      rw [← this]
      exact ⟨rfl, Or.inl rfl⟩
  case isFalse =>
    have := Option.some.inj hhp
    rw [← this]
    exact ⟨rfl, Or.inl rfl⟩
  case isTrue =>
    cases hgb : hugepage_to_gb sz with
    | none => rw [hgb] at hhp; cases hhp
    | some gb =>
      rw [hgb] at hhp
      dsimp only at hhp
      have := Option.some.inj hhp
      rw [← this]
      exact ⟨rfl, Or.inr rfl⟩
  case isFalse =>
    have := Option.some.inj hhp
    rw [← this]
    exact ⟨rfl, Or.inr rfl⟩

theorem int_tdiv_ten_eq_ediv (x : Int) (h : 0 ≤ x) : Int.tdiv x 10 = Int.ediv x 10 := by
  obtain ⟨n, rfl⟩ := Int.eq_ofNat_of_zero_le h
  rfl

theorem int_fdiv_four_eq_ediv (x : Int) (h : 0 ≤ x) : Int.fdiv x 4 = Int.ediv x 4 := by
  obtain ⟨n, rfl⟩ := Int.eq_ofNat_of_zero_le h
  cases n with
  | zero => rfl
  | succ m => rfl

theorem tdiv_ten_mono {a b : Int} (ha : 0 ≤ a) (h : a ≤ b) :
    Int.tdiv a 10 ≤ Int.tdiv b 10 := by
  rw [int_tdiv_ten_eq_ediv a ha, int_tdiv_ten_eq_ediv b (le_trans ha h)]
  exact Int.ediv_le_ediv (by decide) h

theorem fdiv_four_mono {a b : Int} (ha : 0 ≤ a) (h : a ≤ b) :
    Int.fdiv a 4 ≤ Int.fdiv b 4 := by
  rw [int_fdiv_four_eq_ediv a ha, int_fdiv_four_eq_ediv b (le_trans ha h)]
  exact Int.ediv_le_ediv (by decide) h

/-- C1: the claim (and the repo's own test "Too Many Reserved CPUs
(Should Fail)") expect `is_valid = false` with a sizing error for
`reserved_cpu_count = 46` on 48 CPUs with `isolated_cpu_count` absent.
The code instead derives `isolated = 48 - 46 = 2`, making the total
exactly 48, and its strict fit check `total > cpus_per_node` never
fires: it returns `is_valid = true` with no errors, emitting only the
derived-isolated recommendation. -/
theorem c1_overallocation_eval :
    (validate c1Summary c1Request).map
        (fun r => (r.is_valid, r.errors, r.overall_status))
      = some (true, [], "✓ Configuration is valid and feasible")
    ∧ (validate c1Summary c1Request).map
        (fun r => decide (Msg.isolatedNotSpecified 2 ∈ r.recommendations))
      = some true := ⟨rfl, rfl⟩

/-- C2 counterexample: with CPU numbers that fit and huge-page size "3M"
on x86_64, the huge-pages sub-check is invalid yet the aggregate
`is_valid` is `true` — refuting "is_valid true exactly when both the CPU
and huge-pages sub-checks are valid". -/
theorem c2_counterexample :
    (validate c2Summary c2Request).map
        (fun r => (r.is_valid, r.cpu_check.is_valid, r.hugepages_check.is_valid))
      = some (true, true, false) := rfl

/-- C2 amended: the aggregate `is_valid` equals the CPU sub-check's
`is_valid` alone; the huge-pages, RT-kernel and power-mode sub-checks
never affect it. -/
theorem c2_aggregate_validity (s : Summary) (req : Requirements) (r : ValidationReport)
    (h : validate s req = some r) :
    r.is_valid = r.cpu_check.is_valid ∧ r.cpu_check = validate_cpu s req := by
  obtain ⟨rt, hp, hrt, hhp, hr⟩ := validate_some_inv s req r h
  subst hr
  exact ⟨rfl, rfl⟩

theorem c2_amended_witness :
    validate c2Summary c2Request = some c2Report
    ∧ c2Report.is_valid = c2Report.cpu_check.is_valid :=
  ⟨rfl, (c2_aggregate_validity c2Summary c2Request c2Report rfl).1⟩

/-- C3 counterexample: at `cpus_per_node = 48` the code (truncating
`int(48 * 0.1) = 4`) reserves 4 CPUs for a database workload, while the
claim's formula `max(4, round(48 × 0.1)) = max(4, 5)` clamped to
`[2, 12]` gives 5. -/
theorem c3_counterexample :
    calculate_reserved_cpus c3Summary "database" = 4
    ∧ claim_reserved_default 48 = 5
    ∧ (4 : Int) ≠ 5 := by
  refine ⟨rfl, ?_, by decide⟩
  have h5 : round (((48 : Int) : Rat) * (1 / 10)) = 5 := by norm_num [round_eq]
  unfold claim_reserved_default
  rw [if_neg (by decide), h5]
  decide

/-- C3 amended: for every workload type outside
{5g-ran, telco-vnf, ai-inference} (including "database"), the heuristic
equals `max(4, int(cpus_per_node * 0.1))` — truncation, not rounding —
clamped to `[2, cpus_per_node // 4]`, with 4 for unknown/zero
`cpus_per_node`. -/
theorem c3_default_workload_formula (s : Summary) (wt : String)
    (h1 : wt ≠ "5g-ran") (h2 : wt ≠ "telco-vnf") (h3 : wt ≠ "ai-inference") :
    calculate_reserved_cpus s wt = spec_reserved_default (s.cpus_per_node.getD 0) := by
  unfold calculate_reserved_cpus spec_reserved_default
  dsimp only
  split
  · rfl
  · have hA : ¬(wt = "5g-ran" ∨ wt = "telco-vnf") := by
      rintro (h | h)
      · exact h1 h
      · exact h2 h
    rw [if_neg hA]
    by_cases hdb : wt = "database"
    · rw [if_pos hdb]
    · rw [if_neg hdb]

theorem c3_witness :
    calculate_reserved_cpus c3Summary "database"
      = spec_reserved_default (c3Summary.cpus_per_node.getD 0) :=
  c3_default_workload_formula c3Summary "database" (by decide) (by decide) (by decide)

/-- C4 counterexample: `validate` is not total — on a summary whose
architectures list is present but empty, the RT-kernel sub-check's
`summary.get("architectures", ["unknown"])[0]` raises `IndexError`
(modelled as `none`), even for an otherwise well-formed request. -/
theorem c4_counterexample : validate c4Summary c4Request = none := rfl

/-- C4 amended: `validate` never raises provided the architectures list,
when present, is non-empty and any supplied huge-page size whose
upper-cased form ends in G/M/K has a numeric prefix whenever a truthy
count accompanies it (otherwise `float()` raises `ValueError`); under
those conditions every data-shaped problem is encoded in the report — in
particular a missing `reserved_cpu_count` yields `is_valid = false` with
the required-reserved error rather than a fault. -/
theorem c4_totality (s : Summary) (req : Requirements)
    (harch : s.architectures ≠ some [])
    (hsize : ∀ sz, req.hugepages_size = some sz → sz ≠ "" →
      optIntTruthy req.hugepages_count = true → (hugepage_to_gb sz).isSome = true) :
    (validate s req).isSome = true
    ∧ ∀ r, validate s req = some r → req.reserved_cpu_count = none →
        r.is_valid = false ∧ Msg.reservedRequired ∈ r.errors := by
  obtain ⟨a, ha⟩ := getArchitecture_isSome s harch
  obtain ⟨rt, hrt⟩ := validate_rt_kernel_isSome s req a ha
  obtain ⟨hp, hhp⟩ := validate_hugepages_isSome s req a ha hsize
  constructor
  · unfold validate
    rw [hrt, hhp]
    rfl
  · intro r hr hres
    obtain ⟨rt2, hp2, hrt2, hhp2, hrec⟩ := validate_some_inv s req r hr
    subst hrec
    have hcpu : validate_cpu s req =
        { is_valid := false, errors := [Msg.reservedRequired] } := by
      unfold validate_cpu
      rw [hres]
    rw [hcpu]
    exact ⟨rfl, by simp⟩

theorem c4_witness :
    (validate c2Summary c4wRequest).isSome = true
    ∧ (validate c2Summary c4wRequest).map (fun r => (r.is_valid, r.errors))
        = some (false, [Msg.reservedRequired]) := by
  have H := c4_totality c2Summary c4wRequest (by simp [c2Summary])
    (fun sz hsz => absurd hsz (by simp [c4wRequest]))
  exact ⟨H.1, rfl⟩

/-- C5: `_adjust_parameters` is idempotent — each of its three blocks
either fires (leaving its own condition false) or leaves the dict
unchanged, and no block re-enables another block's condition. -/
theorem c5_adjust_idempotent (s : Summary) (p : Params) :
    adjust_parameters s (adjust_parameters s p) = adjust_parameters s p := by
  unfold adjust_parameters
  have h1 : adjust_power (adjust_numa_split s (adjust_topology (adjust_power p)))
      = adjust_numa_split s (adjust_topology (adjust_power p)) := by
    apply adjust_power_eq_self
    rcases adjust_power_post p with h | h
    · left
      rw [adjust_numa_split_per_pod, adjust_topology_per_pod]
      exact h
    · right
      rw [adjust_numa_split_power, adjust_topology_power]
      exact h
  rw [h1]
  have h2 : adjust_topology (adjust_numa_split s (adjust_topology (adjust_power p)))
      = adjust_numa_split s (adjust_topology (adjust_power p)) := by
    apply adjust_topology_eq_self
    rcases adjust_topology_post (adjust_power p) with h | h | h
    · left
      rw [adjust_numa_split_dpdk]
      exact h
    · right; left
      rw [adjust_numa_split_topology]
      exact h
    · right; right
      rw [adjust_numa_split_topology]
      exact h
  rw [h2]
  exact adjust_numa_split_eq_self s _
    (adjust_numa_split_post s (adjust_topology (adjust_power p)))

/-- C6: whenever the supplied huge-page size is outside the
architecture-specific whitelist, the huge-pages sub-check's own
`is_valid` is false and each of its error messages lands in the
aggregate warnings, never in the aggregate errors (which only ever hold
the CPU sub-check's messages). -/
theorem c6_hugepage_errors_demoted (s : Summary) (req : Requirements) (sz arch : String)
    (r : ValidationReport)
    (harch : getArchitecture s = some arch)
    (hsz : req.hugepages_size = some sz) (hne : sz ≠ "")
    (hrej : ((pyIn "x86" arch || pyIn "amd64" arch) = true ∧ sz ≠ "2M" ∧ sz ≠ "1G")
      ∨ ((pyIn "x86" arch || pyIn "amd64" arch) = false
          ∧ (pyIn "aarch64" arch || pyIn "arm64" arch) = true
          ∧ sz ≠ "64K" ∧ sz ≠ "2M" ∧ sz ≠ "32M" ∧ sz ≠ "512M" ∧ sz ≠ "1G"))
    (hv : validate s req = some r) :
    r.hugepages_check.is_valid = false
    ∧ ∀ e ∈ r.hugepages_check.errors, e ∈ r.warnings ∧ e ∉ r.errors := by
  obtain ⟨rt, hp, hrt, hhp, hr⟩ := validate_some_inv s req r hv
  subst hr
  obtain ⟨hval, herr⟩ := validate_hugepages_bad_size s req sz arch harch hsz hne hrej hp hhp
  refine ⟨hval, ?_⟩
  intro e he
  constructor
  · have hmem : e ∈ (if hp.is_valid = true then ([] : List Msg) else hp.errors) := by
      rw [hval]
      simpa using he
    exact List.mem_append_left _ (List.mem_append_right _ hmem)
  · intro hcon
    have hcpu : e ∈ (validate_cpu s req).errors := by
      by_cases hcv : (validate_cpu s req).is_valid = true
      · rw [if_pos hcv] at hcon
        cases hcon
      · rw [if_neg hcv] at hcon
        exact hcon
    have hshape := validate_cpu_errors_shape s req e hcpu
    rcases herr with h9 | h9 <;> rw [h9] at he <;> simp at he <;> subst he <;>
      rcases hshape with h | ⟨t, c, h⟩ <;> simp at h

theorem c6_witness :
    c6Report.hugepages_check.is_valid = false
    ∧ Msg.invalidHugepageSizeX86 "3M" ∈ c6Report.warnings
    ∧ Msg.invalidHugepageSizeX86 "3M" ∉ c6Report.errors := by
  have H := c6_hugepage_errors_demoted c6Summary c6Request "3M" "x86_64" c6Report rfl rfl
    (by decide) (Or.inl ⟨by decide, by decide, by decide⟩) rfl
  have hmem : Msg.invalidHugepageSizeX86 "3M" ∈ c6Report.hugepages_check.errors := by decide
  exact ⟨H.1, (H.2 _ hmem).1, (H.2 _ hmem).2⟩

/-- C7: whenever the merged parameter set carries
`per_pod_power_management = true` together with a power mode other than
"default", conflict resolution forces the resolved `power_mode` back to
"default". -/
theorem c7_per_pod_wins (s : Summary) (wt mcp prof : String) (tmpl : Option Template)
    (ov : Overrides) (m : String)
    (hpp : (merge_parameters s wt mcp prof tmpl ov).per_pod_power_management = some true)
    (hpm : (merge_parameters s wt mcp prof tmpl ov).power_mode = some m)
    (hm : m ≠ "default") :
    (generate_parameters s wt mcp prof tmpl ov).power_mode = some "default" := by
  unfold generate_parameters adjust_parameters
  rw [adjust_numa_split_power, adjust_topology_power]
  unfold adjust_power
  have hbeq : ((merge_parameters s wt mcp prof tmpl ov).power_mode == some "default")
      = false := by
    rw [hpm]
    simp [hm]
  rw [hpp, hbeq]
  rfl

theorem c7_witness :
    (generate_parameters c3Summary "database" "worker-cnf" "performance" none
        c7wOverrides).power_mode = some "default" :=
  c7_per_pod_wins c3Summary "database" "worker-cnf" "performance" none c7wOverrides
    "low-latency" rfl rfl (by decide)

/-- C8 counterexample: the heuristic is not monotonic in `cpus_per_node`
across the zero sentinel — `cpus_per_node=0` yields the safe default 4,
while `cpus_per_node=4` clamps to `cpus//4 = 1` and then to the floor 2,
so `f(0) = 4 > 2 = f(4)` although `0 ≤ 4`. -/
theorem c8_counterexample :
    calculate_reserved_cpus
        { cpus_per_node := some 0, numa_nodes_per_node := some 1 } "database" = 4
    ∧ calculate_reserved_cpus
        { cpus_per_node := some 4, numa_nodes_per_node := some 1 } "database" = 2
    ∧ ¬(calculate_reserved_cpus
          { cpus_per_node := some 0, numa_nodes_per_node := some 1 } "database"
        ≤ calculate_reserved_cpus
            { cpus_per_node := some 4, numa_nodes_per_node := some 1 } "database") :=
  ⟨rfl, rfl, by decide⟩

/-- C8 amended: for a fixed workload type and topology the heuristic is
non-decreasing in `cpus_per_node` on positive CPU counts (the zero/unknown
sentinel, which returns the flat default 4, is excluded). -/
theorem c8_monotone (s : Summary) (wt : String) (a b : Int) (h1 : 1 ≤ a) (hab : a ≤ b) :
    calculate_reserved_cpus { s with cpus_per_node := some a } wt
      ≤ calculate_reserved_cpus { s with cpus_per_node := some b } wt := by
  have ha0 : (0 : Int) ≤ a := by omega
  have hb0 : (0 : Int) ≤ b := by omega
  unfold calculate_reserved_cpus
  dsimp only [Option.getD_some]
  rw [if_neg (by omega : ¬(a = 0)), if_neg (by omega : ¬(b = 0))]
  by_cases hA : wt = "5g-ran" ∨ wt = "telco-vnf"
  · rw [if_pos hA, if_pos hA]
    exact max_le_max le_rfl (min_le_min le_rfl (fdiv_four_mono ha0 hab))
  · rw [if_neg hA, if_neg hA]
    by_cases hdb : wt = "database"
    · rw [if_pos hdb, if_pos hdb]
      exact max_le_max le_rfl
        (min_le_min (max_le_max le_rfl (tdiv_ten_mono ha0 hab)) (fdiv_four_mono ha0 hab))
    · rw [if_neg hdb, if_neg hdb]
      by_cases hai : wt = "ai-inference"
      · rw [if_pos hai, if_pos hai]
        exact max_le_max le_rfl (min_le_min le_rfl (fdiv_four_mono ha0 hab))
      · rw [if_neg hai, if_neg hai]
        exact max_le_max le_rfl
          (min_le_min (max_le_max le_rfl (tdiv_ten_mono ha0 hab)) (fdiv_four_mono ha0 hab))

theorem c8_witness :
    calculate_reserved_cpus { ({} : Summary) with cpus_per_node := some 1 } "database"
      ≤ calculate_reserved_cpus { ({} : Summary) with cpus_per_node := some 8 } "database" :=
  c8_monotone {} "database" 1 8 (by decide) (by decide)

/-- C9: synthesis never mutates the template — the copy of
`default_config` is allocated at a fresh heap address and every write of
the merge and of the in-place conflict resolution lands there, so every
pre-existing dict, in particular the template's `default_config` at
address `a`, is unchanged; repeated syntheses from the same catalog
entry therefore see identical defaults. -/
theorem c9_template_not_mutated (heap : List Params) (s : Summary)
    (wt mcp prof : String) (a : Nat) (ov : Overrides) (i : Nat) (h : i < heap.length) :
    ((generate_parameters_heap heap s wt mcp prof (some a) ov).1)[i]? = heap[i]? := by
  unfold generate_parameters_heap
  dsimp only
  rw [List.getElem?_append, if_pos h]

theorem c9_witness :
    ((generate_parameters_heap [get_base_defaults] c3Summary "database" "worker-cnf"
        "performance" (some 0) {}).1)[0]? = [get_base_defaults][0]? :=
  c9_template_not_mutated [get_base_defaults] c3Summary "database" "worker-cnf"
    "performance" 0 {} 0 (by decide)

/-- C10: a request carrying `hugepages_count = 0` is handled identically
to one with the count absent (Python truthiness treats both as falsy):
the whole validation report is equal in the two cases, and the
huge-pages sub-check emits the count-not-specified recommendation and no
memory-reservation estimate. -/
theorem c10_zero_count_unspecified (s : Summary) (req : Requirements) (sz arch : String)
    (hsz : req.hugepages_size = some sz) (hne : sz ≠ "")
    (harch : getArchitecture s = some arch) :
    validate s { req with hugepages_count := some 0 }
        = validate s { req with hugepages_count := none }
    ∧ ∀ hp, validate_hugepages s { req with hugepages_count := some 0 } = some hp →
        Msg.hugepageCountNotSpecifiedRec ∈ hp.recommendations
        ∧ ∀ q, Msg.hugepagesReserveRec q ∉ hp.recommendations := by
  refine ⟨rfl, ?_⟩
  intro hp hhp
  unfold validate_hugepages at hhp
  rw [harch] at hhp
  dsimp only at hhp
  rw [hsz] at hhp
  simp only [Option.getD_some] at hhp
  have ht : optStrTruthy (some sz) = true := by
    unfold optStrTruthy
    simp [hne]
  rw [ht, if_pos rfl] at hhp
  rw [if_neg (by decide : ¬(optIntTruthy (some 0) = true))] at hhp
  have hdpdk : (optBoolTruthy req.enable_dpdk && !true) = false := by simp
  rw [hdpdk, if_neg Bool.false_ne_true] at hhp
  have hrec := congrArg CheckResult.recommendations (Option.some.inj hhp)
  constructor
  · rw [← hrec]
    simp
  · intro q
    rw [← hrec]
    simp

theorem c10_witness :
    validate c10Summary { c10Request with hugepages_count := some 0 }
        = validate c10Summary { c10Request with hugepages_count := none }
    ∧ Msg.hugepageCountNotSpecifiedRec ∈ c10Hp.recommendations
    ∧ Msg.hugepagesReserveRec 1 ∉ c10Hp.recommendations := by
  have H := c10_zero_count_unspecified c10Summary c10Request "2M" "x86_64" rfl
    (by decide) rfl
  exact ⟨H.1, (H.2 c10Hp rfl).1, (H.2 c10Hp rfl).2 1⟩
